import Mathlib

/-!
Shallow embedding of the funding-arbitrage dashboard's core engines:
src/engine/funding_arb.py, src/engine/squeeze.py, src/config.py and the
normalized ticker data model of src/collectors/base.py.

Modelling conventions, used throughout:
- Python floats are modelled by an arbitrary linear ordered field.  The
  square root hidden inside np.std is passed to the gap-stability reader as
  an explicit function parameter, so every definition stays computable and
  the model can be instantiated both at the rationals (for evaluation by
  kernel reduction) and at the reals with Real.sqrt (for statements about
  actual standard deviations).
- Wall-clock reads (datetime.utcnow) are modelled by explicit time
  arguments, measured in minutes on the same field.
- Python dicts are modelled by association lists; collections.deque with a
  maxlen is modelled by a list with an evicting push.
- Python truthiness on optional floats (both None and 0.0 are falsy) is
  modelled explicitly wherever the source relies on it.
- Fallible lookups return Option; the Python value None is Option.none.
-/

section Model

variable {α : Type} [LinearOrderedField α]

/-- Model of TickerData from src/collectors/base.py (the capture timestamp
is omitted: the engines never read it). -/
structure TickerData (α : Type) where
  exchange : String
  symbol : String
  normalized_symbol : String
  mark_price : Option α := none
  index_price : Option α := none
  last_price : Option α := none
  bid_price : Option α := none
  ask_price : Option α := none
  funding_rate : Option α := none
  predicted_funding_rate : Option α := none
  next_funding_time : Option α := none
  funding_interval_hours : Nat := 8
  open_interest : Option α := none
  open_interest_change_1h : Option α := none
  volume_24h : Option α := none
  data_ok : Bool := true
  error_msg : Option String := none
deriving DecidableEq

/-- Model of TickerData.spread_bps.  Python truthiness: the guard
"self.bid_price and self.ask_price and self.bid_price > 0" is false when
either side is None or 0.0, and when the bid is not positive. -/
def TickerData.spread_bps (t : TickerData α) : Option α :=
  match t.bid_price, t.ask_price with
  | some b, some a =>
      if b ≠ 0 ∧ a ≠ 0 ∧ 0 < b then some ((a - b) / ((b + a) / 2) * 10000) else none
  | _, _ => none

/-- Model of TickerData.minutes_to_funding (times already in minutes). -/
def TickerData.minutes_to_funding (t : TickerData α) (now : α) : Option α :=
  t.next_funding_time.map fun ft => max 0 (ft - now)

/-- Model of Python str.lower, written through the character list (this is
exactly what String.toLower computes, spelled so that it reduces inside the
kernel). -/
def pyLower (s : String) : String := String.mk (s.data.map Char.toLower)

/-- Model of Python str.capitalize: first character uppercased, the rest
lowercased. -/
def pyCapitalize (s : String) : String :=
  match (pyLower s).data with
  | [] => ""
  | c :: cs => String.mk (c.toUpper :: cs)

/-- Model of the Python expression "v if v else d" on an optional float:
None and 0.0 both fall back to the default. -/
def truthyOr (v : Option α) (d : α) : α :=
  match v with
  | some x => if x = 0 then d else x
  | none => d

/-- Model of FundingArbConfig from src/config.py. -/
structure FundingArbConfig (α : Type) where
  gap_warning_threshold : α
  gap_cutoff_threshold : α
  gap_stability_window_min : α
  gap_risk_penalty_weight : α
  default_spread_bps : α
  min_net_edge : α
  data_stale_threshold_sec : α

/-- Default FundingArbConfig values (source decimals written as fractions:
0.05, 0.10, 60, 0.5, 5.0, 0.0, 30). -/
def defaultFundingArbConfig : FundingArbConfig α :=
  { gap_warning_threshold := 1/20
    gap_cutoff_threshold := 1/10
    gap_stability_window_min := 60
    gap_risk_penalty_weight := 1/2
    default_spread_bps := 5
    min_net_edge := 0
    data_stale_threshold_sec := 30 }

/-- Model of EXCHANGE_FEES from src/config.py: per exchange (maker, taker),
in percent (0.02 = 1/50, 0.05 = 1/20, 0.055 = 11/200, 0.06 = 3/50). -/
def EXCHANGE_FEES : List (String × α × α) :=
  [("binance", 1/50, 1/20), ("bybit", 1/50, 11/200), ("okx", 1/50, 1/20),
   ("gate", 1/50, 1/20), ("bitget", 1/50, 3/50), ("mexc", 1/50, 3/50),
   ("hyperliquid", 1/50, 1/20), ("lighter", 1/50, 1/20), ("variational", 1/50, 1/20)]

/-- Model of GapTracker state from src/engine/funding_arb.py: per-key rolling
window of (timestamp, gap) pairs. -/
structure GapTracker (α : Type) where
  window_minutes : α
  max_points : Nat
  history : List ((String × String × String) × List (α × α))
deriving DecidableEq

/-- Model of GapTracker._key: the two exchange names are sorted so that
(A, B) and (B, A) address the same series.  Python string comparison is
lexicographic on code points, modelled on the character lists (this is the
definition of the order on String). -/
def gapKey (symbol exA exB : String) : String × String × String :=
  if exB.data < exA.data then (symbol, exB, exA) else (symbol, exA, exB)

/-- Replace the binding of a key in an association list, or append it. -/
def setAssoc {κ ν : Type} [DecidableEq κ] (k : κ) (v : ν) : List (κ × ν) → List (κ × ν)
  | [] => [(k, v)]
  | (k', v') :: rest => if k' = k then (k, v) :: rest else (k', v') :: setAssoc k v rest

/-- Model of collections.deque(maxlen := m).append: push at the back,
evicting from the front once the buffer is full. -/
def dequePush {β : Type} (q : List β) (m : Nat) (x : β) : List β :=
  (q ++ [x]).drop (q.length + 1 - m)

/-- Model of GapTracker.add. -/
def GapTracker.add (tr : GapTracker α) (now : α) (symbol exA exB : String) (gap : α) :
    GapTracker α :=
  let key := gapKey symbol exA exB
  let q := (tr.history.lookup key).getD []
  { tr with history := setAssoc key (dequePush q tr.max_points (now, gap)) tr.history }

/-- Population variance of a list, i.e. the square of np.std (np.std(x) is
the square root of the mean of the squared deviations from the mean). -/
def popVar (l : List α) : α :=
  let n : α := (l.length : α)
  let m := l.sum / n
  (l.map fun x => (x - m) ^ 2).sum / n

/-- Model of GapTracker.get_stability; sq is the square root used by
np.std (instantiated with Real.sqrt over the reals). -/
def GapTracker.get_stability (tr : GapTracker α) (sq : α → α) (now : α)
    (symbol exA exB : String) : α :=
  match tr.history.lookup (gapKey symbol exA exB) with
  | none => 999
  | some q =>
      let cutoff := now - tr.window_minutes
      let recent := (q.filter fun p => decide (cutoff ≤ p.1)).map Prod.snd
      if recent.length < 3 then 999 else sq (popVar recent)

/-- Model of FundingArbEngine.calculate_spread_cost: Python truthiness means
a None or exactly-zero spread falls back to the configured default. -/
def calculate_spread_cost (cfg : FundingArbConfig α) (ticker_a ticker_b : TickerData α) : α :=
  truthyOr ticker_a.spread_bps cfg.default_spread_bps +
    truthyOr ticker_b.spread_bps cfg.default_spread_bps

/-- Taker fee of an exchange: EXCHANGE_FEES.get(exchange, default taker 0.05). -/
def takerFee (exchange : String) : α :=
  match (EXCHANGE_FEES (α := α)).lookup exchange with
  | some f => f.2
  | none => 1/20

/-- Model of FundingArbEngine.calculate_fee_cost. -/
def calculate_fee_cost (exchange_a exchange_b : String) : α :=
  (takerFee exchange_a + takerFee exchange_b) * 2

/-- Model of FundingArbEngine.calculate_net_edge: the gap penalty is applied
only when gap_stability is strictly below 100. -/
def calculate_net_edge (cfg : FundingArbConfig α)
    (funding_receive funding_pay fee_cost spread_cost_bps gap_stability : α) : α :=
  funding_receive - funding_pay - fee_cost - spread_cost_bps / 100 -
    (if gap_stability < 100 then gap_stability * cfg.gap_risk_penalty_weight else 0)

/-- Model of ArbOpportunity (timestamp omitted).  The gap_stability field is
Option-valued: none models the float('inf') the source stores when the
tracker returned a value of 100 or more; warning is Option-valued: some g
models the "Gap warning" string the source formats from the gap g. -/
structure ArbOpportunity (α : Type) where
  symbol : String
  exchange_a : String
  price_a : α
  funding_a : α
  next_funding_min_a : Option α
  exchange_b : String
  price_b : α
  funding_b : α
  next_funding_min_b : Option α
  gap_pct : α
  spread_cost_bps : α
  gap_stability : Option α
  net_edge : α
  best_leg : String
  data_ok : Bool := true
  warning : Option α := none
deriving DecidableEq

/-- Model of ArbOpportunity.funding_diff. -/
def ArbOpportunity.funding_diff (o : ArbOpportunity α) : α := o.funding_a - o.funding_b

/-- Body of the per-symbol loop of FundingArbEngine.find_opportunities after
the SHORT/LONG classification (funding_arb.py lines 128-171): sEx, sF, sM,
sT describe the short leg, lEx, lF, lM, lT the long leg; keyA and keyB are
the original pair names used for the gap-tracker key (which canonicalizes
them anyway). -/
def evalOrdered (cfg : FundingArbConfig α) (sq : α → α) (now min_edge : α)
    (symbol keyA keyB sEx lEx : String) (sF sM lF lM : α)
    (sT lT : TickerData α) (tr : GapTracker α) :
    GapTracker α × Option (ArbOpportunity α) :=
  let mid := (sM + lM) / 2
  let gap_pct := (lM - sM) / mid * 100
  let tr1 := tr.add now symbol keyA keyB gap_pct
  let gap_stability := tr1.get_stability sq now symbol keyA keyB
  let spread_cost := calculate_spread_cost cfg sT lT
  let fee_cost := calculate_fee_cost (α := α) sEx lEx
  let net_edge :=
    calculate_net_edge cfg |sF| (if lF < 0 then |lF| else 0) fee_cost spread_cost gap_stability
  if cfg.gap_cutoff_threshold < |gap_pct| then (tr1, none)
  else
    let warning := if cfg.gap_warning_threshold < |gap_pct| then some gap_pct else none
    if net_edge < min_edge then (tr1, none)
    else
      (tr1, some
        { symbol := symbol
          exchange_a := sEx
          price_a := sM
          funding_a := sF
          next_funding_min_a := sT.minutes_to_funding now
          exchange_b := lEx
          price_b := lM
          funding_b := lF
          next_funding_min_b := lT.minutes_to_funding now
          gap_pct := gap_pct
          spread_cost_bps := spread_cost
          gap_stability := if gap_stability < 100 then some gap_stability else none
          net_edge := net_edge
          best_leg := pyCapitalize sEx ++ " SHORT / " ++ pyCapitalize lEx ++ " LONG"
          warning := warning })

/-- One (exchange pair, symbol) candidate of find_opportunities (lines
106-171): data/funding/mark/volume filters, then classification of the leg
with the numerically higher funding rate as the SHORT leg, then evaluation.
Rejected candidates before the filters leave the tracker untouched. -/
def evalCandidate (cfg : FundingArbConfig α) (sq : α → α) (now min_volume min_edge : α)
    (ex_a ex_b symbol : String) (ticker_a ticker_b : TickerData α)
    (tr : GapTracker α) : GapTracker α × Option (ArbOpportunity α) :=
  if !ticker_a.data_ok || !ticker_b.data_ok then (tr, none)
  else
    match ticker_a.funding_rate, ticker_b.funding_rate,
        ticker_a.mark_price, ticker_b.mark_price with
    | some fa, some fb, some ma, some mb =>
        let vol_a := ticker_a.volume_24h.getD 0
        let vol_b := ticker_b.volume_24h.getD 0
        if min vol_a vol_b < min_volume then (tr, none)
        else if fa ≥ fb then
          evalOrdered cfg sq now min_edge symbol ex_a ex_b ex_a ex_b fa ma fb mb
            ticker_a ticker_b tr
        else
          evalOrdered cfg sq now min_edge symbol ex_a ex_b ex_b ex_a fb mb fa ma
            ticker_b ticker_a tr
    | _, _, _, _ => (tr, none)

/-- Stable insertion into a descending list: the new element goes after all
existing elements whose key is at least as large. -/
def sortInsert {β : Type} (key : β → α) (x : β) : List β → List β
  | [] => [x]
  | y :: ys => if key y ≤ key x then x :: y :: ys else y :: sortInsert key x ys

/-- Stable descending sort, modelling Python list.sort(key, reverse=True). -/
def sortDesc {β : Type} (key : β → α) (l : List β) : List β :=
  l.foldr (sortInsert key) []

/-- Per-symbol loop over the common symbols of one exchange pair, threading
the gap tracker. -/
def processSymbols (cfg : FundingArbConfig α) (sq : α → α) (now min_volume min_edge : α)
    (ex_a ex_b : String) (tickers_a tickers_b : List (String × TickerData α)) :
    List String → GapTracker α → GapTracker α × List (ArbOpportunity α)
  | [], tr => (tr, [])
  | s :: rest, tr =>
      match tickers_a.lookup s, tickers_b.lookup s with
      | some ta, some tb =>
          let r1 := evalCandidate cfg sq now min_volume min_edge ex_a ex_b s ta tb tr
          let r2 := processSymbols cfg sq now min_volume min_edge ex_a ex_b
            tickers_a tickers_b rest r1.1
          (r2.1, r1.2.toList ++ r2.2)
      | _, _ =>
          processSymbols cfg sq now min_volume min_edge ex_a ex_b tickers_a tickers_b rest tr

/-- Symbols present on both exchanges.  Python iterates a set here, in an
unspecified order; the model fixes the first map's key order (none of the
verified properties depend on the iteration order). -/
def commonSymbols (tickers_a tickers_b : List (String × TickerData α)) : List String :=
  (tickers_a.map Prod.fst).filter fun s => (tickers_b.lookup s).isSome

/-- Inner pair loop: one fixed exchange ex_a against every later exchange. -/
def processInner (cfg : FundingArbConfig α) (sq : α → α) (now min_volume min_edge : α)
    (ex_a : String) (tickers_a : List (String × TickerData α)) :
    List (String × List (String × TickerData α)) → GapTracker α →
    GapTracker α × List (ArbOpportunity α)
  | [], tr => (tr, [])
  | (ex_b, tickers_b) :: rest, tr =>
      let r1 := processSymbols cfg sq now min_volume min_edge ex_a ex_b tickers_a tickers_b
        (commonSymbols tickers_a tickers_b) tr
      let r2 := processInner cfg sq now min_volume min_edge ex_a tickers_a rest r1.1
      (r2.1, r1.2 ++ r2.2)

/-- Outer loop over every unordered pair of exchanges, in input order. -/
def processPairs (cfg : FundingArbConfig α) (sq : α → α) (now min_volume min_edge : α) :
    List (String × List (String × TickerData α)) → GapTracker α →
    GapTracker α × List (ArbOpportunity α)
  | [], tr => (tr, [])
  | (ex_a, tickers_a) :: rest, tr =>
      let r1 := processInner cfg sq now min_volume min_edge ex_a tickers_a rest tr
      let r2 := processPairs cfg sq now min_volume min_edge rest r1.1
      (r2.1, r1.2 ++ r2.2)

/-- Model of FundingArbEngine.find_opportunities: enumerate exchange pairs
and common symbols, evaluate each candidate (threading the gap tracker),
then sort the surviving opportunities by net edge, descending and stable.
Returns the ranked list together with the updated tracker. -/
def find_opportunities (cfg : FundingArbConfig α) (sq : α → α) (now : α)
    (tickers_by_exchange : List (String × List (String × TickerData α)))
    (min_volume : α) (min_edge : Option α) (tr : GapTracker α) :
    List (ArbOpportunity α) × GapTracker α :=
  let me := min_edge.getD cfg.min_net_edge
  let r := processPairs cfg sq now min_volume me tickers_by_exchange tr
  (sortDesc (fun o => o.net_edge) r.2, r.1)

/-- Model of FundingArbEngine.__init__: a fresh tracker with the configured
window and the default 360-point capacity. -/
def freshGapTracker (cfg : FundingArbConfig α) : GapTracker α :=
  { window_minutes := cfg.gap_stability_window_min, max_points := 360, history := [] }

/-- The three metric names the squeeze engine records per snapshot.  Every
dict the source ever stores carries exactly these three keys (possibly with
None values), so the Python test "field in data" is always true and absence
of a metric is modelled by a None value. -/
inductive MetricField
  | oi
  | price
  | funding
deriving DecidableEq

/-- One recorded snapshot of the metric-history tracker from
src/engine/squeeze.py. -/
structure Snapshot (α : Type) where
  oi : Option α
  price : Option α
  funding : Option α
deriving DecidableEq

/-- Field access data.get(field) on a stored snapshot. -/
def Snapshot.get (s : Snapshot α) : MetricField → Option α
  | .oi => s.oi
  | .price => s.price
  | .funding => s.funding

/-- Model of HistoryTracker state from src/engine/squeeze.py. -/
structure HistoryTracker (α : Type) where
  window_minutes : α
  max_points : Nat
  history : List ((String × String) × List (α × Snapshot α))
deriving DecidableEq

/-- Model of HistoryTracker.add: the key lower-cases the exchange name. -/
def HistoryTracker.add (tr : HistoryTracker α) (now : α) (exchange symbol : String)
    (data : Snapshot α) : HistoryTracker α :=
  let key := (pyLower exchange, symbol)
  let q := (tr.history.lookup key).getD []
  { tr with history := setAssoc key (dequePush q tr.max_points (now, data)) tr.history }

/-- Model of HistoryTracker.get_delta.  The first scan takes the field value
of the first (oldest) entry whose timestamp is at most now - minutes; when
that yields None (no entry is old enough, or the old-enough entry stored a
None value) the source falls back to the first of the five oldest entries
whose dict carries the key, which - since every stored dict carries all
three keys - is simply the oldest entry. -/
def HistoryTracker.get_delta (tr : HistoryTracker α) (now : α) (exchange symbol : String)
    (fld : MetricField) (minutes : α) : Option α :=
  match tr.history.lookup (pyLower exchange, symbol) with
  | none => none
  | some hist =>
      if hist.length < 2 then none
      else
        let cutoff := now - minutes
        let current := hist.getLast?.bind fun p => p.2.get fld
        let old1 := (hist.find? fun p => decide (p.1 ≤ cutoff)).bind fun p => p.2.get fld
        let old_val :=
          match old1 with
          | some v => some v
          | none => (hist.take 5).head?.bind fun p => p.2.get fld
        match current, old_val with
        | some c, some o => if o = 0 then none else some ((c - o) / |o| * 100)
        | _, _ => none

/-- Model of SqueezeConfig from src/config.py (decimals as fractions:
weights 0.30, 0.20, 0.20, 0.15, 0.15; maxima 10.0, 5.0, 0.1, 0.05, 50;
extreme threshold 0.05; lookback 60). -/
structure SqueezeConfig (α : Type) where
  weight_oi_shock : α
  weight_price_move : α
  weight_crowding : α
  weight_funding_accel : α
  weight_liquidity_stress : α
  oi_shock_max : α
  price_move_max : α
  crowding_max : α
  funding_accel_max : α
  liquidity_stress_max : α
  funding_extreme_threshold : α
  lookback_window_min : α

/-- Default SqueezeConfig values. -/
def defaultSqueezeConfig : SqueezeConfig α :=
  { weight_oi_shock := 3/10
    weight_price_move := 1/5
    weight_crowding := 1/5
    weight_funding_accel := 3/20
    weight_liquidity_stress := 3/20
    oi_shock_max := 10
    price_move_max := 5
    crowding_max := 1/10
    funding_accel_max := 1/20
    liquidity_stress_max := 50
    funding_extreme_threshold := 1/20
    lookback_window_min := 60 }

/-- Model of SqueezeSignal (timestamp omitted). -/
structure SqueezeSignal (α : Type) where
  symbol : String
  exchange : String
  squeeze_score : α
  direction_bias : String
  oi_delta_pct : Option α := none
  price_delta_pct : Option α := none
  funding_level : Option α := none
  funding_delta : Option α := none
  volume_spike : Option α := none
  spread_stress : Option α := none
  oi_score : α
  price_score : α
  crowding_score : α
  funding_accel_score : α
  liquidity_score : α
  notes : String := ""
  data_ok : Bool := true
deriving DecidableEq

/-- Model of SqueezeEngine._normalize_score. -/
def normalize_score (value : Option α) (max_val : α) : α :=
  match value with
  | none => 0
  | some v => min 100 (|v| / max_val * 100)

/-- Model of SqueezeEngine._determine_direction. -/
def determine_direction (cfg : SqueezeConfig α) (funding oi_delta : Option α) : String :=
  match funding with
  | none => "Neutral"
  | some f =>
      let is_funding_extreme : Bool := decide (cfg.funding_extreme_threshold < |f|)
      let oi_increasing : Bool :=
        match oi_delta with
        | some d => decide (0 < d)
        | none => false
      if is_funding_extreme && oi_increasing then
        if 0 < f then "Long squeeze risk ↑" else "Short squeeze risk ↑"
      else "Neutral"

/-- The dict recorded into the history tracker by calculate_score; the price
entry is "ticker.mark_price or ticker.last_price", where Python truthiness
lets a 0.0 mark price fall through to the last price. -/
def tickerSnapshot (t : TickerData α) : Snapshot α :=
  { oi := t.open_interest
    price :=
      match t.mark_price with
      | some m => if m = 0 then t.last_price else some m
      | none => t.last_price
    funding := t.funding_rate }

/-- Model of SqueezeEngine.calculate_score, threading the tracker state.
pyRound models Python round(x, ndigits) (its exact binary-float semantics
is kept abstract); fmt models the "{:.1f}" string formatting used in notes.
Optional outputs use Python truthiness: a None or exactly-zero delta is
published as None, anything else rounded. -/
def calculate_score (cfg : SqueezeConfig α) (pyRound : Nat → α → α) (fmt : α → String)
    (tr : HistoryTracker α) (now : α) (ticker : TickerData α) (prev_funding : Option α) :
    SqueezeSignal α × HistoryTracker α :=
  let tr1 := tr.add now ticker.exchange ticker.symbol (tickerSnapshot ticker)
  let oi_delta := tr1.get_delta now ticker.exchange ticker.symbol .oi 60
  let price_delta := tr1.get_delta now ticker.exchange ticker.symbol .price 60
  let funding_delta :=
    match ticker.funding_rate, prev_funding with
    | some f, some p => some (f - p)
    | _, _ => none
  let oi_score := normalize_score oi_delta cfg.oi_shock_max
  let price_score := normalize_score price_delta cfg.price_move_max
  let crowding_score := normalize_score ticker.funding_rate cfg.crowding_max
  let funding_accel_score := normalize_score funding_delta cfg.funding_accel_max
  let spread_stress := truthyOr ticker.spread_bps 0
  let liquidity_score := normalize_score (some spread_stress) cfg.liquidity_stress_max
  let squeeze_score :=
    cfg.weight_oi_shock * oi_score + cfg.weight_price_move * price_score +
      cfg.weight_crowding * crowding_score + cfg.weight_funding_accel * funding_accel_score +
      cfg.weight_liquidity_stress * liquidity_score
  let direction := determine_direction cfg ticker.funding_rate oi_delta
  let funding_is_pos : Bool :=
    match ticker.funding_rate with
    | some f => if f = 0 then false else decide (0 < f)
    | none => false
  let notes_parts :=
    (if 50 < oi_score then ["OI shock " ++ fmt (oi_delta.getD 0) ++ "%"] else []) ++
      (if 50 < crowding_score then
        ["Crowded " ++ (if funding_is_pos then "long" else "short")] else []) ++
      (if 50 < funding_accel_score then ["Funding accelerating"] else [])
  let notes := if notes_parts.isEmpty then "Normal" else String.intercalate ", " notes_parts
  ({ symbol := ticker.normalized_symbol
     exchange := ticker.exchange
     squeeze_score := pyRound 1 squeeze_score
     direction_bias := direction
     oi_delta_pct :=
       match oi_delta with
       | some v => if v = 0 then none else some (pyRound 2 v)
       | none => none
     price_delta_pct :=
       match price_delta with
       | some v => if v = 0 then none else some (pyRound 2 v)
       | none => none
     funding_level := ticker.funding_rate
     funding_delta :=
       match funding_delta with
       | some v => if v = 0 then none else some (pyRound 4 v)
       | none => none
     spread_stress := if spread_stress = 0 then none else some (pyRound 1 spread_stress)
     oi_score := pyRound 1 oi_score
     price_score := pyRound 1 price_score
     crowding_score := pyRound 1 crowding_score
     funding_accel_score := pyRound 1 funding_accel_score
     liquidity_score := pyRound 1 liquidity_score
     notes := notes
     data_ok := ticker.data_ok }, tr1)

/-- Main loop of SqueezeEngine.analyze_all: tickers with data_ok false are
skipped entirely - no history update, no emitted signal. -/
def analyzeFold (cfg : SqueezeConfig α) (pyRound : Nat → α → α) (fmt : α → String)
    (now : α) (prev_fundings : List (String × α)) :
    List (TickerData α) → HistoryTracker α → List (SqueezeSignal α) × HistoryTracker α
  | [], tr => ([], tr)
  | t :: rest, tr =>
      if t.data_ok then
        let pf := prev_fundings.lookup (t.exchange ++ ":" ++ t.symbol)
        let r1 := calculate_score cfg pyRound fmt tr now t pf
        let r2 := analyzeFold cfg pyRound fmt now prev_fundings rest r1.2
        (r1.1 :: r2.1, r2.2)
      else analyzeFold cfg pyRound fmt now prev_fundings rest tr

/-- Model of SqueezeEngine.analyze_all: score the healthy tickers in order,
then sort the signals by squeeze score, descending and stable. -/
def analyze_all (cfg : SqueezeConfig α) (pyRound : Nat → α → α) (fmt : α → String)
    (now : α) (tickers : List (TickerData α)) (prev_fundings : List (String × α))
    (tr : HistoryTracker α) : List (SqueezeSignal α) × HistoryTracker α :=
  let r := analyzeFold cfg pyRound fmt now prev_fundings tickers tr
  (sortDesc (fun s => s.squeeze_score) r.1, r.2)

/-- Model of SqueezeEngine.__init__: a fresh history tracker with the
configured lookback window and the default 360-point capacity. -/
def freshHistoryTracker (cfg : SqueezeConfig α) : HistoryTracker α :=
  { window_minutes := cfg.lookback_window_min, max_points := 360, history := [] }

/-- Record a list of (time, gap) points for one gap-tracker key, in order. -/
def addAll (tr : GapTracker α) (s a b : String) (l : List (α × α)) : GapTracker α :=
  l.foldl (fun t p => t.add p.1 s a b p.2) tr

end Model

/-- Keep only the last n elements of a list. -/
def takeLast {β : Type} (n : Nat) (l : List β) : List β := l.drop (l.length - n)

section ConcreteInstances

variable {α : Type} [LinearOrderedField α]

/-- Exchange A of the end-to-end scenario of claim C2: funding 0.05 percent,
mark 100.00, volume 2,000,000, no quotes. -/
def c2Ta : TickerData α :=
  { exchange := "exa", symbol := "BTC/USDT", normalized_symbol := "BTC/USDT",
    mark_price := some 100, funding_rate := some (1/20), volume_24h := some 2000000 }

/-- Exchange B of the scenario of claim C2: funding -0.02 percent, mark
100.02 (= 5001/50), volume 2,000,000, no quotes. -/
def c2Tb : TickerData α :=
  { exchange := "exb", symbol := "BTC/USDT", normalized_symbol := "BTC/USDT",
    mark_price := some (5001/50), funding_rate := some (-(1/50)), volume_24h := some 2000000 }

/-- The exchange-to-tickers input map of the scenario of claim C2. -/
def c2Input : List (String × List (String × TickerData α)) :=
  [("exa", [("BTC/USDT", c2Ta)]), ("exb", [("BTC/USDT", c2Tb)])]

/-- The opportunity the scenario of claim C2 produces once the net-edge
floor is lowered: A short, B long, gap 200/10001 (about 0.02 percent),
spread 10 bps, sentinel stability (published as infinity, modelled none),
net edge -0.27, no warning. -/
def c2Opp : ArbOpportunity α :=
  { symbol := "BTC/USDT", exchange_a := "exa", price_a := 100, funding_a := 1/20,
    next_funding_min_a := none, exchange_b := "exb", price_b := 5001/50,
    funding_b := -(1/50), next_funding_min_b := none, gap_pct := 200/10001,
    spread_cost_bps := 10, gap_stability := none, net_edge := -(27/100),
    best_leg := "Exa SHORT / Exb LONG", warning := none }

/-- Tracker state of the claim C1 counterexample: three gaps -150, 0, 150
recorded at time 0 for one key; their standard deviation is sqrt 15000,
which lies strictly between 100 and the 999 sentinel. -/
def c1Tracker : GapTracker α :=
  addAll (freshGapTracker defaultFundingArbConfig) "S" "a" "b" [(0, -150), (0, 0), (0, 150)]

/-- Short-leg ticker of the claim C1 witness. -/
def c1wTa : TickerData ℚ :=
  { exchange := "x", symbol := "S", normalized_symbol := "S",
    mark_price := some 100, funding_rate := some 1 }

/-- Long-leg ticker of the claim C1 witness. -/
def c1wTb : TickerData ℚ :=
  { exchange := "y", symbol := "S", normalized_symbol := "S",
    mark_price := some 100, funding_rate := some 0 }

/-- Tracker the claim C1 witness evaluation produces. -/
def c1wTracker : GapTracker ℚ := ⟨60, 360, [(("S", "x", "y"), [(0, 0)])]⟩

/-- Opportunity the claim C1 witness evaluation emits. -/
def c1wOpp : ArbOpportunity ℚ :=
  { symbol := "S", exchange_a := "x", price_a := 100, funding_a := 1,
    next_funding_min_a := none, exchange_b := "y", price_b := 100, funding_b := 0,
    next_funding_min_b := none, gap_pct := 0, spread_cost_bps := 10,
    gap_stability := none, net_edge := 7/10, best_leg := "X SHORT / Y LONG",
    warning := none }

/-- Leg with a computable spread of exactly 0 bps (bid = ask = 100), for the
claim C3 counterexample. -/
def c3Ta : TickerData α :=
  { exchange := "x", symbol := "S", normalized_symbol := "S",
    bid_price := some 100, ask_price := some 100 }

/-- Leg with no quotes at all, for the claim C3 counterexample. -/
def c3Tb : TickerData α :=
  { exchange := "y", symbol := "S", normalized_symbol := "S" }

/-- Ticker of the claim C4 counterexample: tiny funding edge, equal marks. -/
def c4Ta : TickerData α :=
  { exchange := "u", symbol := "S", normalized_symbol := "S",
    mark_price := some 100, funding_rate := some (1/100), volume_24h := some 1000000 }

/-- Opposite leg of the claim C4 counterexample. -/
def c4Tb : TickerData α :=
  { exchange := "v", symbol := "S", normalized_symbol := "S",
    mark_price := some 100, funding_rate := some 0, volume_24h := some 1000000 }

/-- Input map of the claim C4 counterexample. -/
def c4Input : List (String × List (String × TickerData α)) :=
  [("u", [("S", c4Ta)]), ("v", [("S", c4Tb)])]

end ConcreteInstances

/-- History-tracker state of the claim C6 witness: two snapshots for the key
(bin, S), both inside the lookback window. -/
def c6Tracker : HistoryTracker ℚ :=
  ⟨60, 360, [(("bin", "S"),
    [(0, ⟨some 5, none, none⟩), (1, ⟨some 7, none, none⟩)])]⟩

/-- Unhealthy ticker (data_ok false) of the claim C9 witness. -/
def c9Bad : TickerData ℚ :=
  { exchange := "binance", symbol := "S", normalized_symbol := "S",
    mark_price := some 100, funding_rate := some 1, data_ok := false }

/-- History-tracker state of the claim C10 witness: one earlier snapshot
with open interest 5, so a fresh reading of 5 yields a delta of exactly 0. -/
def c10Tracker : HistoryTracker ℚ :=
  (freshHistoryTracker defaultSqueezeConfig).add 0 "ex" "S" ⟨some 5, none, none⟩

/-- Ticker of the claim C10 witness: open interest 5 (delta 0), funding 3
(delta 2 against a previous 1), bid = ask (spread stress exactly 0). -/
def c10Ticker : TickerData ℚ :=
  { exchange := "ex", symbol := "S", normalized_symbol := "S",
    open_interest := some 5, funding_rate := some 3,
    bid_price := some 100, ask_price := some 100 }

section Helpers

variable {α : Type} [LinearOrderedField α]

theorem evalOrdered_some (cfg : FundingArbConfig α) (sq : α → α)
    (now min_edge : α) (symbol keyA keyB sEx lEx : String) (sF sM lF lM : α)
    (sT lT : TickerData α) (tr tr' : GapTracker α) (opp : ArbOpportunity α)
    (h : evalOrdered cfg sq now min_edge symbol keyA keyB sEx lEx sF sM lF lM sT lT tr
      = (tr', some opp)) :
    opp.net_edge = calculate_net_edge cfg |sF| (if lF < 0 then |lF| else 0)
      (calculate_fee_cost sEx lEx) (calculate_spread_cost cfg sT lT)
      (GapTracker.get_stability (tr.add now symbol keyA keyB ((lM - sM)/((sM + lM)/2)*100))
        sq now symbol keyA keyB) ∧
    (opp.warning.isSome ↔ cfg.gap_warning_threshold < |(lM - sM)/((sM + lM)/2)*100|) ∧
    ¬ cfg.gap_cutoff_threshold < |(lM - sM)/((sM + lM)/2)*100| ∧
    ¬ opp.net_edge < min_edge := by
  simp only [evalOrdered] at h
  set g := (lM - sM)/((sM + lM)/2)*100 with hg
  set st := (tr.add now symbol keyA keyB g).get_stability sq now symbol keyA keyB with hst
  set nedge := calculate_net_edge cfg |sF| (if lF < 0 then |lF| else 0)
    (calculate_fee_cost sEx lEx) (calculate_spread_cost cfg sT lT) st with hnedge
  by_cases hcut : cfg.gap_cutoff_threshold < |g|
  · rw [if_pos hcut] at h
    exact absurd (congrArg Prod.snd h) (by simp)
  · rw [if_neg hcut] at h
    by_cases hlow : nedge < min_edge
    · rw [if_pos hlow] at h
      exact absurd (congrArg Prod.snd h) (by simp)
    · rw [if_neg hlow] at h
      injection h with h1 h2
      injection h2 with h3
      subst h3
      refine ⟨rfl, ?_, hcut, hlow⟩
      by_cases hw : cfg.gap_warning_threshold < |g|
      · simp [hw]
      · simp [hw]

theorem evalOrdered_isSome_iff (cfg : FundingArbConfig α) (sq : α → α)
    (now min_edge : α) (symbol keyA keyB sEx lEx : String) (sF sM lF lM : α)
    (sT lT : TickerData α) (tr : GapTracker α) :
    (evalOrdered cfg sq now min_edge symbol keyA keyB sEx lEx sF sM lF lM sT lT tr).2.isSome
      ↔ (¬ cfg.gap_cutoff_threshold < |(lM - sM)/((sM + lM)/2)*100| ∧
        ¬ calculate_net_edge cfg |sF| (if lF < 0 then |lF| else 0)
          (calculate_fee_cost sEx lEx) (calculate_spread_cost cfg sT lT)
          (GapTracker.get_stability (tr.add now symbol keyA keyB ((lM - sM)/((sM + lM)/2)*100))
            sq now symbol keyA keyB) < min_edge) := by
  simp only [evalOrdered]
  set g := (lM - sM)/((sM + lM)/2)*100 with hg
  set st := (tr.add now symbol keyA keyB g).get_stability sq now symbol keyA keyB with hst
  set nedge := calculate_net_edge cfg |sF| (if lF < 0 then |lF| else 0)
    (calculate_fee_cost sEx lEx) (calculate_spread_cost cfg sT lT) st with hnedge
  by_cases hcut : cfg.gap_cutoff_threshold < |g|
  · rw [if_pos hcut]
    simp [hcut]
  · rw [if_neg hcut]
    by_cases hlow : nedge < min_edge
    · rw [if_pos hlow]
      simp [hcut, hlow]
    · rw [if_neg hlow]
      simp [hcut, hlow]

theorem evalCandidate_passes (cfg : FundingArbConfig α) (sq : α → α)
    (now min_volume min_edge : α) (ex_a ex_b symbol : String)
    (ticker_a ticker_b : TickerData α) (tr : GapTracker α) (fa fb ma mb : α)
    (hda : ticker_a.data_ok = true) (hdb : ticker_b.data_ok = true)
    (hfa : ticker_a.funding_rate = some fa) (hfb : ticker_b.funding_rate = some fb)
    (hma : ticker_a.mark_price = some ma) (hmb : ticker_b.mark_price = some mb)
    (hvol : ¬ min (ticker_a.volume_24h.getD 0) (ticker_b.volume_24h.getD 0) < min_volume) :
    evalCandidate cfg sq now min_volume min_edge ex_a ex_b symbol ticker_a ticker_b tr
      = if fa ≥ fb then
          evalOrdered cfg sq now min_edge symbol ex_a ex_b ex_a ex_b fa ma fb mb
            ticker_a ticker_b tr
        else
          evalOrdered cfg sq now min_edge symbol ex_a ex_b ex_b ex_a fb mb fa ma
            ticker_b ticker_a tr := by
  rw [evalCandidate]
  simp [hda, hdb, hfa, hfb, hma, hmb, hvol]

theorem lookup_setAssoc_self {κ ν : Type} [BEq κ] [LawfulBEq κ] [DecidableEq κ]
    (k : κ) (v : ν) : ∀ l : List (κ × ν), (setAssoc k v l).lookup k = some v
  | [] => by simp [setAssoc, List.lookup]
  | (k', v') :: rest => by
      by_cases h : k' = k
      · simp [setAssoc, h, List.lookup]
      · simp only [setAssoc, if_neg h, List.lookup]
        have hb : (k == k') = false := by simp [Ne.symm h]
        simp [hb, lookup_setAssoc_self k v rest]

theorem add_history_lookup (tr : GapTracker α) (now : α) (s a b : String) (g : α) :
    (tr.add now s a b g).history.lookup (gapKey s a b)
      = some (dequePush ((tr.history.lookup (gapKey s a b)).getD []) tr.max_points (now, g)) := by
  exact lookup_setAssoc_self (gapKey s a b)
    (dequePush ((tr.history.lookup (gapKey s a b)).getD []) tr.max_points (now, g)) tr.history

theorem add_window (tr : GapTracker α) (now : α) (s a b : String) (g : α) :
    (tr.add now s a b g).window_minutes = tr.window_minutes := rfl

theorem add_max_points (tr : GapTracker α) (now : α) (s a b : String) (g : α) :
    (tr.add now s a b g).max_points = tr.max_points := rfl

theorem addAll_window (s a b : String) :
    ∀ (l : List (α × α)) (tr : GapTracker α),
      (addAll tr s a b l).window_minutes = tr.window_minutes
  | [], tr => rfl
  | p :: l, tr => by
      rw [addAll, List.foldl_cons, ← addAll, addAll_window s a b l]
      rfl

theorem addAll_max_points (s a b : String) :
    ∀ (l : List (α × α)) (tr : GapTracker α),
      (addAll tr s a b l).max_points = tr.max_points
  | [], tr => rfl
  | p :: l, tr => by
      rw [addAll, List.foldl_cons, ← addAll, addAll_max_points s a b l]
      rfl

theorem addAll_history_lookup (s a b : String) :
    ∀ (l : List (α × α)) (tr : GapTracker α) (q : List (α × α)),
      tr.history.lookup (gapKey s a b) = some q →
      (addAll tr s a b l).history.lookup (gapKey s a b)
        = some (l.foldl (fun acc p => dequePush acc tr.max_points p) q)
  | [], tr, q, hq => by simpa [addAll] using hq
  | p :: l, tr, q, hq => by
      rw [addAll, List.foldl_cons, ← addAll]
      have h1 : (tr.add p.1 s a b p.2).history.lookup (gapKey s a b)
          = some (dequePush q tr.max_points p) := by
        rw [add_history_lookup, hq]
        rfl
      rw [addAll_history_lookup s a b l _ _ h1, List.foldl_cons]
      rfl

theorem dequePush_of_lt {β : Type} (q : List β) (m : Nat) (x : β) (h : q.length + 1 ≤ m) :
    dequePush q m x = q ++ [x] := by
  simp [dequePush, Nat.sub_eq_zero_of_le h]

theorem foldl_dequePush_append {β : Type} (m : Nat) :
    ∀ (l q : List β), q.length + l.length ≤ m →
      l.foldl (fun acc x => dequePush acc m x) q = q ++ l
  | [], q, h => by simp
  | x :: l, q, h => by
      rw [List.foldl_cons, dequePush_of_lt q m x (by simp at h; omega)]
      rw [foldl_dequePush_append m l (q ++ [x]) (by simp at h ⊢; omega)]
      simp

theorem dequePush_eq_takeLast {β : Type} (q : List β) (m : Nat) (x : β) :
    dequePush q m x = takeLast m (q ++ [x]) := by
  simp [dequePush, takeLast]

theorem takeLast_of_le {β : Type} (n : Nat) (l : List β) (h : l.length ≤ n) :
    takeLast n l = l := by
  simp [takeLast, Nat.sub_eq_zero_of_le h]

theorem takeLast_length_le {β : Type} (n : Nat) (l : List β) :
    (takeLast n l).length ≤ n := by
  simp [takeLast]
  omega

theorem takeLast_append_takeLast {β : Type} (n : Nat) (A xs : List β) :
    takeLast n (takeLast n A ++ xs) = takeLast n (A ++ xs) := by
  by_cases h : A.length ≤ n
  · rw [takeLast_of_le n A h]
  · have hk : A.length - n ≤ A.length := Nat.sub_le _ _
    rw [takeLast, takeLast, takeLast, ← List.drop_append_of_le_length hk, List.drop_drop]
    congr 1
    simp
    omega

theorem foldl_dequePush_takeLast {β : Type} (m : Nat) :
    ∀ (l q : List β), q.length ≤ m →
      l.foldl (fun acc x => dequePush acc m x) q = takeLast m (q ++ l)
  | [], q, h => by simpa using (takeLast_of_le m q h).symm
  | x :: l, q, h => by
      rw [List.foldl_cons,
        foldl_dequePush_takeLast m l (dequePush q m x)
          (by rw [dequePush_eq_takeLast]; exact takeLast_length_le m _),
        dequePush_eq_takeLast, takeLast_append_takeLast]
      simp

theorem abs_list_sum_le (c : ℝ) :
    ∀ l : List ℝ, (∀ x ∈ l, |x| ≤ c) → |l.sum| ≤ l.length • c
  | [], _ => by simp
  | x :: l, h => by
      have h1 : |x| ≤ c := h x (by simp)
      have h2 : |l.sum| ≤ l.length • c :=
        abs_list_sum_le c l (fun y hy => h y (by simp [hy]))
      calc |(x :: l).sum| = |x + l.sum| := by simp
        _ ≤ |x| + |l.sum| := abs_add _ _
        _ ≤ c + l.length • c := add_le_add h1 h2
        _ = (x :: l).length • c := by simp [succ_nsmul]; ring

theorem popVar_le_sq (l : List ℝ) (c : ℝ) (hc : 0 ≤ c) (h : ∀ x ∈ l, |x| ≤ c) :
    popVar l ≤ (2*c)^2 := by
  by_cases hl : l = []
  · subst hl
    simp only [popVar, List.map_nil, List.sum_nil, List.length_nil]
    norm_num
    positivity
  · have hn : (0:ℝ) < l.length := by
      have := List.length_pos.mpr hl
      exact_mod_cast this
    rw [popVar]
    have hsum : |l.sum| ≤ l.length • c := abs_list_sum_le c l h
    have hm : |l.sum / l.length| ≤ c := by
      rw [abs_div, abs_of_pos hn, div_le_iff hn]
      calc |l.sum| ≤ l.length • c := hsum
        _ = c * l.length := by rw [nsmul_eq_mul]; ring
    have hsq : ∀ y ∈ l.map (fun x => (x - l.sum / l.length) ^ 2), y ≤ (2*c)^2 := by
      intro y hy
      obtain ⟨x, hx, rfl⟩ := List.mem_map.mp hy
      have hxc : |x| ≤ c := h x hx
      have habs : |x - l.sum / l.length| ≤ 2*c := by
        calc |x - l.sum / l.length| ≤ |x| + |l.sum / l.length| := abs_sub _ _
          _ ≤ c + c := add_le_add hxc hm
          _ = 2*c := by ring
      have := abs_le.mp habs
      exact sq_le_sq' (by linarith) (by linarith)
    have hs := List.sum_le_card_nsmul _ _ hsq
    rw [List.length_map, nsmul_eq_mul] at hs
    rw [div_le_iff hn]
    calc (l.map fun x => (x - l.sum / l.length) ^ 2).sum ≤ l.length * (2*c)^2 := hs
      _ = (2*c)^2 * l.length := by ring

theorem zip_replicate_eq {β γ : Type} (x : β) (y : γ) :
    ∀ n, (List.replicate n x).zip (List.replicate n y) = List.replicate n (x, y)
  | 0 => rfl
  | n+1 => by simp [List.replicate_succ, zip_replicate_eq x y n]

theorem filter_replicate_of_pos {β : Type} (p : β → Bool) (x : β) (h : p x = true) :
    ∀ n, (List.replicate n x).filter p = List.replicate n x
  | 0 => rfl
  | n+1 => by simp [List.replicate_succ, List.filter_cons, h, filter_replicate_of_pos p x h n]

theorem popVar_replicate_zero (n : Nat) : popVar (List.replicate n (0:ℝ)) = 0 := by
  simp [popVar, List.sum_replicate, List.map_replicate]

theorem truthyOr_eq (v : Option α) (d : α) :
    truthyOr v d = if v = none ∨ v = some 0 then d else v.getD 0 := by
  cases v with
  | none => simp [truthyOr]
  | some x =>
      by_cases hx : x = 0
      · simp [truthyOr, hx]
      · simp [truthyOr, hx]

end Helpers

section ClaimTheorems

variable {α : Type} [LinearOrderedField α]

/-- Claim C1 counterexample.  Three recorded gaps -150, 0, 150 give the
real, non-sentinel stability reading sqrt 15000 (strictly between 100 and
the 999 sentinel), yet calculate_net_edge applies no penalty term for it:
the result differs from the claimed formula with the penalty included. -/
theorem C1_counterexample :
    GapTracker.get_stability (c1Tracker (α := ℝ)) Real.sqrt 0 "S" "a" "b" ≠ 999 ∧
    calculate_net_edge (defaultFundingArbConfig (α := ℝ)) 1 0 0 0
        (GapTracker.get_stability (c1Tracker (α := ℝ)) Real.sqrt 0 "S" "a" "b") = 1 ∧
    (1 : ℝ) ≠ 1 - 0 - 0 - 0/100 -
        GapTracker.get_stability (c1Tracker (α := ℝ)) Real.sqrt 0 "S" "a" "b" *
          (defaultFundingArbConfig (α := ℝ)).gap_risk_penalty_weight := by
  have hgk : gapKey "S" "a" "b" = ("S", "a", "b") := by decide
  have hs : GapTracker.get_stability (c1Tracker (α := ℝ)) Real.sqrt 0 "S" "a" "b" = Real.sqrt 15000 := by
    have hlook : (c1Tracker (α := ℝ)).history.lookup (gapKey "S" "a" "b")
        = some [((0:ℝ), (-150:ℝ)), (0, 0), (0, 150)] := by
      norm_num [c1Tracker, addAll, GapTracker.add, freshGapTracker, defaultFundingArbConfig,
        dequePush, setAssoc, List.lookup, hgk]
    rw [GapTracker.get_stability, hlook]
    have hw : (c1Tracker (α := ℝ)).window_minutes = 60 := rfl
    rw [hw]
    norm_num [List.filter, popVar]
  have h100 : (100:ℝ) ≤ Real.sqrt 15000 := by
    have h := Real.sqrt_le_sqrt (show (10000:ℝ) ≤ 15000 by norm_num)
    rwa [show (10000:ℝ) = 100^2 by norm_num, Real.sqrt_sq (by norm_num : (0:ℝ) ≤ 100)] at h
  have h999 : Real.sqrt 15000 < 999 := by
    have h := Real.sqrt_lt_sqrt (by norm_num : (0:ℝ) ≤ 15000)
      (show (15000:ℝ) < 998001 by norm_num)
    rwa [show (998001:ℝ) = 999^2 by norm_num, Real.sqrt_sq (by norm_num : (0:ℝ) ≤ 999)] at h
  refine ⟨by rw [hs]; exact ne_of_lt h999, ?_, ?_⟩
  · rw [hs, calculate_net_edge, if_neg (not_lt.mpr h100)]
    norm_num
  · rw [hs]
    have hwt : (defaultFundingArbConfig (α := ℝ)).gap_risk_penalty_weight = 1/2 := rfl
    rw [hwt]
    intro heq
    nlinarith [h100]

/-- Claim C1 (corrected).  The net edge of every emitted opportunity is
calculate_net_edge applied to the absolute short-leg funding, the absolute
long-leg funding when that is negative (else 0), the pair fee cost, the pair
spread cost and the stability reading taken right after recording the gap;
and calculate_net_edge subtracts fee cost, spread_cost_bps/100 and the
gap_stability times penalty-weight term.  Amended from the claim: the
penalty term is included exactly when gap_stability < 100 -- every sentinel
return (999) gets no penalty, but so does any real reading of 100 or more,
so "exactly when the reading is real and non-sentinel" is not what the code
does. -/
theorem C1_net_edge_formula (cfg : FundingArbConfig α) (sq : α → α)
    (fr fp fee sp gs now min_volume min_edge : α) (ex_a ex_b symbol : String)
    (ta tb : TickerData α) (tr tr' : GapTracker α) (fa fb ma mb : α) (opp : ArbOpportunity α)
    (hfa : ta.funding_rate = some fa) (hfb : tb.funding_rate = some fb)
    (hma : ta.mark_price = some ma) (hmb : tb.mark_price = some mb)
    (hres : evalCandidate cfg sq now min_volume min_edge ex_a ex_b symbol ta tb tr
      = (tr', some opp)) :
    calculate_net_edge cfg fr fp fee sp gs
      = fr - fp - fee - sp / 100
        - (if gs < 100 then gs * cfg.gap_risk_penalty_weight else 0) ∧
    calculate_net_edge cfg fr fp fee sp 999 = fr - fp - fee - sp / 100 ∧
    (fa ≥ fb → opp.net_edge
      = calculate_net_edge cfg |fa| (if fb < 0 then |fb| else 0)
          (calculate_fee_cost ex_a ex_b) (calculate_spread_cost cfg ta tb)
          (GapTracker.get_stability
            (tr.add now symbol ex_a ex_b ((mb - ma) / ((ma + mb) / 2) * 100))
            sq now symbol ex_a ex_b)) ∧
    (¬ fa ≥ fb → opp.net_edge
      = calculate_net_edge cfg |fb| (if fa < 0 then |fa| else 0)
          (calculate_fee_cost ex_b ex_a) (calculate_spread_cost cfg tb ta)
          (GapTracker.get_stability
            (tr.add now symbol ex_a ex_b ((ma - mb) / ((mb + ma) / 2) * 100))
            sq now symbol ex_a ex_b)) := by
  have key : (fa ≥ fb →
      evalOrdered cfg sq now min_edge symbol ex_a ex_b ex_a ex_b fa ma fb mb ta tb tr
        = (tr', some opp)) ∧
      (¬ fa ≥ fb →
      evalOrdered cfg sq now min_edge symbol ex_a ex_b ex_b ex_a fb mb fa ma tb ta tr
        = (tr', some opp)) := by
    rw [evalCandidate] at hres
    simp only [hfa, hfb, hma, hmb] at hres
    split at hres
    · exact absurd (congrArg Prod.snd hres) (by simp)
    · split at hres
      · exact absurd (congrArg Prod.snd hres) (by simp)
      · split at hres
        next hord => exact ⟨fun _ => hres, fun h => absurd hord h⟩
        next hord => exact ⟨fun h => absurd h hord, fun _ => hres⟩
  refine ⟨rfl, ?_, ?_, ?_⟩
  · rw [calculate_net_edge, if_neg (by norm_num)]
    ring
  · intro hord
    exact (evalOrdered_some cfg sq now min_edge symbol ex_a ex_b ex_a ex_b fa ma fb mb
      ta tb tr tr' opp (key.1 hord)).1
  · intro hord
    exact (evalOrdered_some cfg sq now min_edge symbol ex_a ex_b ex_b ex_a fb mb fa ma
      tb ta tr tr' opp (key.2 hord)).1

/-- Claim C1 witness: a concrete candidate at the rationals is emitted and
its net edge is exactly the claimed composition. -/
theorem C1_net_edge_formula_witness :
    evalCandidate (defaultFundingArbConfig (α := ℚ)) (fun q => q) 0 0 0 "x" "y" "S"
        c1wTa c1wTb (freshGapTracker defaultFundingArbConfig)
      = (c1wTracker, some c1wOpp) ∧
    c1wOpp.net_edge
      = calculate_net_edge (defaultFundingArbConfig (α := ℚ)) |(1:ℚ)|
          (if (0:ℚ) < 0 then |(0:ℚ)| else 0)
          (calculate_fee_cost "x" "y") (calculate_spread_cost defaultFundingArbConfig c1wTa c1wTb)
          (GapTracker.get_stability
            ((freshGapTracker (defaultFundingArbConfig (α := ℚ))).add 0 "S" "x" "y"
              (((100:ℚ) - 100) / ((100 + 100) / 2) * 100)) (fun q => q) 0 "S" "x" "y") := by
  have h : evalCandidate (defaultFundingArbConfig (α := ℚ)) (fun q => q) 0 0 0 "x" "y" "S"
      c1wTa c1wTb (freshGapTracker defaultFundingArbConfig)
      = (c1wTracker, some c1wOpp) := by
    have hgk : gapKey "S" "x" "y" = ("S", "x", "y") := by decide
    have hfx : takerFee (α := ℚ) "x" = 1/20 := rfl
    have hfy : takerFee (α := ℚ) "y" = 1/20 := rfl
    have hcx : pyCapitalize "x" = "X" := by decide
    have hcy : pyCapitalize "y" = "Y" := by decide
    have hleg : "X" ++ " SHORT / " ++ "Y" ++ " LONG" = "X SHORT / Y LONG" := by decide
    norm_num [evalCandidate, evalOrdered, GapTracker.add, GapTracker.get_stability, setAssoc,
      dequePush, calculate_spread_cost, calculate_fee_cost, calculate_net_edge, truthyOr,
      TickerData.spread_bps, TickerData.minutes_to_funding, freshGapTracker,
      defaultFundingArbConfig, c1wTa, c1wTb, c1wTracker, c1wOpp, List.lookup, List.filter,
      hgk, hfx, hfy, hcx, hcy, hleg]
  exact ⟨h, (C1_net_edge_formula (defaultFundingArbConfig (α := ℚ)) (fun q => q)
    0 0 0 0 0 0 0 0 "x" "y" "S" c1wTa c1wTb (freshGapTracker defaultFundingArbConfig)
    c1wTracker 1 0 100 100 c1wOpp rfl rfl rfl rfl h).2.2.1 (by norm_num)⟩

/-- Claim C2 (confirmed).  The end-to-end scenario: exchange A funding 0.05
and mark 100.00, exchange B funding -0.02 and mark 100.02, volumes both
2,000,000, no quotes, fresh tracker.  find_opportunities with the default
floors returns no opportunity; re-run with the floor lowered to -1, the one
opportunity shows A as SHORT leg and B as LONG leg, gap 200/10001 (which is
(100.02-100.00)/100.01*100, about 0.02 percent), no warning, spread cost 10
bps, net edge -0.27; the fee cost is 0.20 and the tracker is left holding a
single observation, on which the stability read returns the 999 sentinel
(no penalty was applied).  Stated for every ordered field and every square
root, since the sentinel path never takes one. -/
theorem C2_end_to_end_scenario (sq : α → α) :
    (find_opportunities defaultFundingArbConfig sq 0 c2Input 0 none
        (freshGapTracker defaultFundingArbConfig)).1 = [] ∧
    (find_opportunities defaultFundingArbConfig sq 0 c2Input 0 (some (-1))
        (freshGapTracker defaultFundingArbConfig)).1 = [c2Opp] ∧
    calculate_fee_cost (α := α) "exa" "exb" = 1/5 ∧
    calculate_spread_cost (defaultFundingArbConfig (α := α)) c2Ta c2Tb = 10 ∧
    (find_opportunities defaultFundingArbConfig sq 0 c2Input 0 none
        (freshGapTracker defaultFundingArbConfig)).2.get_stability sq 0 "BTC/USDT" "exa" "exb"
      = 999 := by
  have hfa : takerFee (α := α) "exa" = 1/20 := rfl
  have hfb : takerFee (α := α) "exb" = 1/20 := rfl
  have hgk : gapKey "BTC/USDT" "exa" "exb" = ("BTC/USDT", "exa", "exb") := by decide
  have hca : pyCapitalize "exa" = "Exa" := by decide
  have hcb : pyCapitalize "exb" = "Exb" := by decide
  have hleg : "Exa" ++ " SHORT / " ++ "Exb" ++ " LONG" = "Exa SHORT / Exb LONG" := by decide
  have h1 : |(200 : α)/10001| = 200/10001 := abs_of_nonneg (by positivity)
  have h2 : |(1 : α)/20| = 1/20 := abs_of_nonneg (by positivity)
  have h3 : |(1 : α)/50| = 1/50 := abs_of_nonneg (by positivity)
  refine ⟨?_, ?_, ?_, ?_, ?_⟩ <;>
  · norm_num [find_opportunities, processPairs, processInner, processSymbols, commonSymbols,
      evalCandidate, evalOrdered, GapTracker.add, GapTracker.get_stability, setAssoc,
      dequePush, calculate_spread_cost, calculate_fee_cost, calculate_net_edge,
      truthyOr, TickerData.spread_bps, TickerData.minutes_to_funding, popVar,
      sortDesc, sortInsert, freshGapTracker, defaultFundingArbConfig, c2Ta, c2Tb, c2Input,
      c2Opp, List.lookup, List.filter, hfa, hfb, hgk, hca, hcb, hleg, h1, h2, h3]

/-- Claim C2 witness: the scenario theorem instantiated at the rationals
(the square-root parameter is never reached on the sentinel path). -/
theorem C2_end_to_end_scenario_witness :
    (find_opportunities (defaultFundingArbConfig (α := ℚ)) (fun q => q) 0 c2Input 0 none
        (freshGapTracker defaultFundingArbConfig)).1 = [] :=
  (C2_end_to_end_scenario (fun q => q)).1

/-- Claim C3 counterexample.  A leg with bid = ask = 100 has the computable
spread of exactly 0 bps, yet calculate_spread_cost charges it the 5 bps
default (total 10 with a quote-less partner), not the claimed 0 + 5. -/
theorem C3_counterexample :
    (c3Ta (α := ℚ)).spread_bps = some 0 ∧
    calculate_spread_cost (defaultFundingArbConfig (α := ℚ)) c3Ta c3Tb = 10 ∧
    (10 : ℚ) ≠ 0 + (defaultFundingArbConfig (α := ℚ)).default_spread_bps := by
  refine ⟨?_, ?_, ?_⟩ <;>
    norm_num [TickerData.spread_bps, calculate_spread_cost, truthyOr, c3Ta, c3Tb,
      defaultFundingArbConfig]

/-- Claim C3 (corrected).  The spread cost is the sum of the two legs'
contributions, and a leg's spread_bps is computable exactly as the source
guard says; amended from the claim: the 5 bps default is substituted not
only when the leg has no computable spread but also when the computable
spread is exactly 0 bps (Python truthiness), and a zero ask also defeats
computability. -/
theorem C3_spread_cost (cfg : FundingArbConfig α) (ta tb : TickerData α) :
    calculate_spread_cost cfg ta tb
      = (if ta.spread_bps = none ∨ ta.spread_bps = some 0 then cfg.default_spread_bps
          else ta.spread_bps.getD 0)
        + (if tb.spread_bps = none ∨ tb.spread_bps = some 0 then cfg.default_spread_bps
          else tb.spread_bps.getD 0) ∧
    (∀ (t : TickerData α) (b a : α), t.bid_price = some b → t.ask_price = some a →
      0 < b → a ≠ 0 → t.spread_bps = some ((a - b) / ((b + a) / 2) * 10000)) ∧
    (∀ t : TickerData α, (t.bid_price = none ∨ t.ask_price = none ∨ t.ask_price = some 0 ∨
      (∃ b, t.bid_price = some b ∧ b ≤ 0)) → t.spread_bps = none) := by
  refine ⟨by rw [calculate_spread_cost, truthyOr_eq, truthyOr_eq], ?_, ?_⟩
  · intro t b a hb ha hb0 ha0
    simp only [TickerData.spread_bps, hb, ha]
    rw [if_pos ⟨ne_of_gt hb0, ha0, hb0⟩]
  · intro t h
    rcases h with h | h | h | ⟨b, hb, hble⟩
    · cases hask : t.ask_price <;> simp [TickerData.spread_bps, h, hask]
    · cases hbid : t.bid_price <;> simp [TickerData.spread_bps, h, hbid]
    · cases hbid : t.bid_price with
      | none => simp [TickerData.spread_bps, hbid]
      | some b =>
          simp only [TickerData.spread_bps, hbid, h]
          rw [if_neg]
          rintro ⟨-, ha, -⟩
          exact ha rfl
    · cases hask : t.ask_price with
      | none => simp [TickerData.spread_bps, hb, hask]
      | some a =>
          simp only [TickerData.spread_bps, hb, hask]
          rw [if_neg]
          rintro ⟨-, -, hpos⟩
          exact absurd hpos (not_lt.mpr hble)

/-- Claim C3 witness: a computable non-zero spread and a non-computable one,
through the amended theorem. -/
theorem C3_spread_cost_witness :
    ({ exchange := "w", symbol := "S", normalized_symbol := "S",
       bid_price := some 100, ask_price := some 101 } : TickerData ℚ).spread_bps
      = some (((101 : ℚ) - 100) / ((100 + 101) / 2) * 10000) ∧
    ({ exchange := "w", symbol := "S", normalized_symbol := "S",
       ask_price := some 100 } : TickerData ℚ).spread_bps = none := by
  constructor
  · exact (C3_spread_cost (defaultFundingArbConfig (α := ℚ)) c3Ta c3Tb).2.1
      { exchange := "w", symbol := "S", normalized_symbol := "S",
        bid_price := some 100, ask_price := some 101 } 100 101 rfl rfl
      (by norm_num) (by norm_num)
  · exact (C3_spread_cost (defaultFundingArbConfig (α := ℚ)) c3Ta c3Tb).2.2
      { exchange := "w", symbol := "S", normalized_symbol := "S",
        ask_price := some 100 } (Or.inl rfl)

/-- Claim C4 (corrected).  For every candidate passing the data, funding,
mark and volume filters: an opportunity is emitted iff the gap magnitude
does not exceed the cutoff AND the net edge is not below the floor (amended
from the claim, which said gap-cutoff violation was the exact criterion:
the net-edge floor also excludes); the warning is attached exactly when the
gap magnitude strictly exceeds the warning threshold; and a gap magnitude
exactly equal to the cutoff is retained by the gap check. -/
theorem C4_gap_cutoff (cfg : FundingArbConfig α) (sq : α → α)
    (now min_volume min_edge : α) (ex_a ex_b symbol : String)
    (ta tb : TickerData α) (tr : GapTracker α) (fa fb ma mb : α)
    (hda : ta.data_ok = true) (hdb : tb.data_ok = true)
    (hfa : ta.funding_rate = some fa) (hfb : tb.funding_rate = some fb)
    (hma : ta.mark_price = some ma) (hmb : tb.mark_price = some mb)
    (hvol : ¬ min (ta.volume_24h.getD 0) (tb.volume_24h.getD 0) < min_volume) :
    (fa ≥ fb →
      ((evalCandidate cfg sq now min_volume min_edge ex_a ex_b symbol ta tb tr).2.isSome
        ↔ (¬ cfg.gap_cutoff_threshold < |(mb - ma) / ((ma + mb) / 2) * 100| ∧
          ¬ calculate_net_edge cfg |fa| (if fb < 0 then |fb| else 0)
              (calculate_fee_cost ex_a ex_b) (calculate_spread_cost cfg ta tb)
              (GapTracker.get_stability (tr.add now symbol ex_a ex_b
                ((mb - ma) / ((ma + mb) / 2) * 100)) sq now symbol ex_a ex_b) < min_edge)) ∧
      (∀ opp, (evalCandidate cfg sq now min_volume min_edge ex_a ex_b symbol ta tb tr).2
          = some opp →
        (opp.warning.isSome
          ↔ cfg.gap_warning_threshold < |(mb - ma) / ((ma + mb) / 2) * 100|))) ∧
    (¬ fa ≥ fb →
      ((evalCandidate cfg sq now min_volume min_edge ex_a ex_b symbol ta tb tr).2.isSome
        ↔ (¬ cfg.gap_cutoff_threshold < |(ma - mb) / ((mb + ma) / 2) * 100| ∧
          ¬ calculate_net_edge cfg |fb| (if fa < 0 then |fa| else 0)
              (calculate_fee_cost ex_b ex_a) (calculate_spread_cost cfg tb ta)
              (GapTracker.get_stability (tr.add now symbol ex_a ex_b
                ((ma - mb) / ((mb + ma) / 2) * 100)) sq now symbol ex_a ex_b) < min_edge)) ∧
      (∀ opp, (evalCandidate cfg sq now min_volume min_edge ex_a ex_b symbol ta tb tr).2
          = some opp →
        (opp.warning.isSome
          ↔ cfg.gap_warning_threshold < |(ma - mb) / ((mb + ma) / 2) * 100|))) ∧
    (fa ≥ fb → |(mb - ma) / ((ma + mb) / 2) * 100| = cfg.gap_cutoff_threshold →
      ¬ calculate_net_edge cfg |fa| (if fb < 0 then |fb| else 0)
          (calculate_fee_cost ex_a ex_b) (calculate_spread_cost cfg ta tb)
          (GapTracker.get_stability (tr.add now symbol ex_a ex_b
            ((mb - ma) / ((ma + mb) / 2) * 100)) sq now symbol ex_a ex_b) < min_edge →
      (evalCandidate cfg sq now min_volume min_edge ex_a ex_b symbol ta tb tr).2.isSome) := by
  have hpass := evalCandidate_passes cfg sq now min_volume min_edge ex_a ex_b symbol ta tb tr
    fa fb ma mb hda hdb hfa hfb hma hmb hvol
  refine ⟨?_, ?_, ?_⟩
  · intro hord
    rw [hpass, if_pos hord]
    constructor
    · exact evalOrdered_isSome_iff cfg sq now min_edge symbol ex_a ex_b ex_a ex_b fa ma fb mb
        ta tb tr
    · intro opp hopp
      have hpair : evalOrdered cfg sq now min_edge symbol ex_a ex_b ex_a ex_b fa ma fb mb
          ta tb tr
          = ((evalOrdered cfg sq now min_edge symbol ex_a ex_b ex_a ex_b fa ma fb mb
            ta tb tr).1, some opp) := by
        rw [← hopp]
      exact (evalOrdered_some cfg sq now min_edge symbol ex_a ex_b ex_a ex_b fa ma fb mb
        ta tb tr _ opp hpair).2.1
  · intro hord
    rw [hpass, if_neg hord]
    constructor
    · exact evalOrdered_isSome_iff cfg sq now min_edge symbol ex_a ex_b ex_b ex_a fb mb fa ma
        tb ta tr
    · intro opp hopp
      have hpair : evalOrdered cfg sq now min_edge symbol ex_a ex_b ex_b ex_a fb mb fa ma
          tb ta tr
          = ((evalOrdered cfg sq now min_edge symbol ex_a ex_b ex_b ex_a fb mb fa ma
            tb ta tr).1, some opp) := by
        rw [← hopp]
      exact (evalOrdered_some cfg sq now min_edge symbol ex_a ex_b ex_b ex_a fb mb fa ma
        tb ta tr _ opp hpair).2.1
  · intro hord hbound hedge
    rw [hpass, if_pos hord]
    refine (evalOrdered_isSome_iff cfg sq now min_edge symbol ex_a ex_b ex_a ex_b fa ma fb mb
      ta tb tr).mpr ⟨?_, hedge⟩
    rw [hbound]
    exact lt_irrefl _

/-- Claim C4 counterexample.  A candidate with gap 0 (not above the cutoff)
is still excluded from the results -- by the net-edge floor -- refuting
"excluded exactly when the gap exceeds the cutoff".  The tracker history
shows the candidate was evaluated, not pre-filtered. -/
theorem C4_counterexample :
    (find_opportunities (defaultFundingArbConfig (α := ℝ)) Real.sqrt 0 c4Input 0 none
        (freshGapTracker defaultFundingArbConfig)).1 = [] ∧
    (find_opportunities (defaultFundingArbConfig (α := ℝ)) Real.sqrt 0 c4Input 0 none
        (freshGapTracker defaultFundingArbConfig)).2.history
      = [(("S", "u", "v"), [((0 : ℝ), (0 : ℝ))])] ∧
    ¬ (defaultFundingArbConfig (α := ℝ)).gap_cutoff_threshold < |(0 : ℝ)| := by
  have hgk : gapKey "S" "u" "v" = ("S", "u", "v") := by decide
  have hfu : takerFee (α := ℝ) "u" = 1/20 := rfl
  have hfv : takerFee (α := ℝ) "v" = 1/20 := rfl
  have habs : |(1:ℝ)/100| = 1/100 := abs_of_nonneg (by positivity)
  refine ⟨?_, ?_, ?_⟩
  · norm_num [find_opportunities, processPairs, processInner, processSymbols, commonSymbols,
      evalCandidate, evalOrdered, GapTracker.add, GapTracker.get_stability, setAssoc,
      dequePush, calculate_spread_cost, calculate_fee_cost, calculate_net_edge,
      truthyOr, TickerData.spread_bps, TickerData.minutes_to_funding, popVar, sortDesc,
      sortInsert, freshGapTracker, defaultFundingArbConfig, c4Ta, c4Tb, c4Input,
      List.lookup, List.filter, hgk, hfu, hfv, habs]
  · norm_num [find_opportunities, processPairs, processInner, processSymbols, commonSymbols,
      evalCandidate, evalOrdered, GapTracker.add, GapTracker.get_stability, setAssoc,
      dequePush, calculate_spread_cost, calculate_fee_cost, calculate_net_edge,
      truthyOr, TickerData.spread_bps, TickerData.minutes_to_funding, popVar, sortDesc,
      sortInsert, freshGapTracker, defaultFundingArbConfig, c4Ta, c4Tb, c4Input,
      List.lookup, List.filter, hgk, hfu, hfv, habs]
  · norm_num [defaultFundingArbConfig]

/-- Claim C4 witness: a concrete candidate at the rationals passes both the
gap check and the edge floor and is emitted. -/
theorem C4_gap_cutoff_witness :
    (evalCandidate (defaultFundingArbConfig (α := ℚ)) (fun q => q) 0 0 0 "u" "v" "S"
        { exchange := "u", symbol := "S", normalized_symbol := "S",
          mark_price := some 100, funding_rate := some 1 }
        { exchange := "v", symbol := "S", normalized_symbol := "S",
          mark_price := some 100, funding_rate := some 0 }
        (freshGapTracker defaultFundingArbConfig)).2.isSome := by
  have hgk : gapKey "S" "u" "v" = ("S", "u", "v") := by decide
  have hfu : takerFee (α := ℚ) "u" = 1/20 := rfl
  have hfv : takerFee (α := ℚ) "v" = 1/20 := rfl
  refine ((C4_gap_cutoff (defaultFundingArbConfig (α := ℚ)) (fun q => q) 0 0 0 "u" "v" "S"
      _ _ (freshGapTracker defaultFundingArbConfig) 1 0 100 100
      rfl rfl rfl rfl rfl rfl (by norm_num)).1 (by norm_num)).1.mpr ⟨?_, ?_⟩
  · norm_num [defaultFundingArbConfig]
  · norm_num [GapTracker.add, GapTracker.get_stability, setAssoc, dequePush,
      calculate_spread_cost, calculate_fee_cost, calculate_net_edge, truthyOr,
      TickerData.spread_bps, freshGapTracker, defaultFundingArbConfig, List.lookup,
      List.filter, hgk, hfu, hfv, abs_one]

/-- Claim C5 (confirmed).  get_stability returns the 999 sentinel whenever
the key was never recorded and whenever fewer than 3 recorded points fall
in the lookback window -- in particular before any record it never returns
a numeric reading; and 999 compares strictly larger than any standard
deviation obtainable from recorded gaps: gaps produced by the engine from
positive mark prices have magnitude at most 200, and the standard deviation
of any list of such gaps is below 999. -/
theorem C5_stability_sentinel :
    (∀ (tr : GapTracker ℝ) (now : ℝ) (s a b : String),
      tr.history.lookup (gapKey s a b) = none →
      tr.get_stability Real.sqrt now s a b = 999) ∧
    (∀ (tr : GapTracker ℝ) (now : ℝ) (s a b : String) (q : List (ℝ × ℝ)),
      tr.history.lookup (gapKey s a b) = some q →
      (q.filter fun p => decide (now - tr.window_minutes ≤ p.1)).length < 3 →
      tr.get_stability Real.sqrt now s a b = 999) ∧
    (∀ gaps : List ℝ, (∀ g ∈ gaps, |g| ≤ 200) → Real.sqrt (popVar gaps) < 999) ∧
    (∀ s l : ℝ, 0 < s → 0 < l → |(l - s) / ((s + l) / 2) * 100| ≤ 200) := by
  refine ⟨?_, ?_, ?_, ?_⟩
  · intro tr now s a b h
    simp [GapTracker.get_stability, h]
  · intro tr now s a b q h hlen
    rw [GapTracker.get_stability, h]
    simp only
    rw [if_pos]
    rwa [List.length_map]
  · intro gaps hg
    have h1 : popVar gaps ≤ (2*200)^2 := popVar_le_sq gaps 200 (by norm_num) hg
    have h2 : Real.sqrt (popVar gaps) ≤ Real.sqrt 160000 :=
      Real.sqrt_le_sqrt (by linarith)
    have h3 : Real.sqrt 160000 = 400 := by
      rw [show (160000:ℝ) = 400^2 by norm_num, Real.sqrt_sq (by norm_num : (0:ℝ) ≤ 400)]
    linarith
  · intro s l hs hl
    have hpos : (0:ℝ) < (s + l)/2 := by linarith
    have habs : |l - s| ≤ s + l := by
      rw [abs_le]
      constructor <;> linarith
    rw [abs_mul, abs_div, abs_of_pos hpos, abs_of_pos (by norm_num : (0:ℝ) < (100:ℝ))]
    rw [div_mul_eq_mul_div, div_le_iff hpos]
    nlinarith [habs]

/-- Claim C5 witness: the sentinel on a fresh tracker and the bound on a
concrete gap list and gap computation. -/
theorem C5_stability_sentinel_witness :
    GapTracker.get_stability ⟨60, 360, []⟩ Real.sqrt 0 "BTC/USDT" "binance" "bybit" = 999 ∧
    Real.sqrt (popVar [1, 2, 3]) < 999 ∧
    |((101 : ℝ) - 100) / ((100 + 101) / 2) * 100| ≤ 200 := by
  refine ⟨C5_stability_sentinel.1 _ 0 _ _ _ rfl, ?_, ?_⟩
  · refine C5_stability_sentinel.2.2.1 [1, 2, 3] ?_
    intro g hg
    simp only [List.mem_cons, List.not_mem_nil, or_false] at hg
    rcases hg with rfl | rfl | rfl <;> rw [abs_of_nonneg (by norm_num)] <;> norm_num
  · exact C5_stability_sentinel.2.2.2 100 101 (by norm_num) (by norm_num)

/-- Claim C6 (confirmed).  get_delta returns None when the key was never
recorded or fewer than 2 snapshots exist; on program-reachable histories
(timestamps non-decreasing, every snapshot carrying the three metric keys)
it returns (current - reference)/|reference|*100 -- None when either side
is missing or the reference is exactly 0 -- where current is the newest
snapshot's field and reference is the oldest snapshot whose timestamp is at
most now - lookback, falling back to the head of the five oldest snapshots
when none is that old; with exactly 2 points spaced inside the lookback the
delta comes from that fallback; and the exchange-name lookup is
case-normalized. -/
theorem C6_get_delta :
    (∀ (tr : HistoryTracker α) (now : α) (ex sym : String) (fld : MetricField) (minutes : α),
      tr.history.lookup (pyLower ex, sym) = none →
      tr.get_delta now ex sym fld minutes = none) ∧
    (∀ (tr : HistoryTracker α) (now : α) (ex sym : String) (fld : MetricField) (minutes : α)
      (hist : List (α × Snapshot α)),
      tr.history.lookup (pyLower ex, sym) = some hist → hist.length < 2 →
      tr.get_delta now ex sym fld minutes = none) ∧
    (∀ (tr : HistoryTracker α) (now : α) (ex sym : String) (fld : MetricField) (minutes : α)
      (hist : List (α × Snapshot α)),
      tr.history.lookup (pyLower ex, sym) = some hist →
      2 ≤ hist.length →
      hist.Pairwise (fun p q => p.1 ≤ q.1) →
      tr.get_delta now ex sym fld minutes
        = match hist.getLast?.bind (fun p => p.2.get fld),
            (match hist.find? (fun p => decide (p.1 ≤ now - minutes)) with
             | some p => p.2.get fld
             | none => (hist.take 5).head?.bind (fun p => p.2.get fld)) with
          | some c, some o => if o = 0 then none else some ((c - o) / |o| * 100)
          | _, _ => none) ∧
    (∀ (tr : HistoryTracker α) (now : α) (ex sym : String) (fld : MetricField) (minutes : α)
      (t1 t2 : α) (s1 s2 : Snapshot α),
      tr.history.lookup (pyLower ex, sym) = some [(t1, s1), (t2, s2)] →
      now - minutes < t1 → now - minutes < t2 →
      tr.get_delta now ex sym fld minutes
        = match s2.get fld, s1.get fld with
          | some c, some o => if o = 0 then none else some ((c - o) / |o| * 100)
          | _, _ => none) ∧
    (∀ (tr : HistoryTracker α) (now : α) (e1 e2 sym : String) (fld : MetricField) (minutes : α),
      pyLower e1 = pyLower e2 →
      tr.get_delta now e1 sym fld minutes = tr.get_delta now e2 sym fld minutes) := by
  refine ⟨?_, ?_, ?_, ?_, ?_⟩
  · intro tr now ex sym fld minutes h
    simp [HistoryTracker.get_delta, h]
  · intro tr now ex sym fld minutes hist h hlen
    simp [HistoryTracker.get_delta, h, if_pos hlen]
  · intro tr now ex sym fld minutes hist h hlen hmono
    rw [HistoryTracker.get_delta, h]
    simp only
    rw [if_neg (by omega)]
    have hov : (match (hist.find? fun p => decide (p.1 ≤ now - minutes)).bind
          (fun p => p.2.get fld) with
        | some v => some v
        | none => (hist.take 5).head?.bind fun p => p.2.get fld)
        = (match hist.find? (fun p => decide (p.1 ≤ now - minutes)) with
           | some p => p.2.get fld
           | none => (hist.take 5).head?.bind fun p => p.2.get fld) := by
      cases hfind : hist.find? (fun p => decide (p.1 ≤ now - minutes)) with
      | none => simp
      | some p =>
          simp only [Option.some_bind]
          cases hv : p.2.get fld with
          | some v => simp
          | none =>
              simp only
              cases hist with
              | nil => simp at hfind
              | cons hd t =>
                  rw [List.find?_cons] at hfind
                  by_cases hp : (decide (hd.1 ≤ now - minutes)) = true
                  · rw [hp] at hfind
                    simp only at hfind
                    injection hfind with hfind
                    subst hfind
                    simp [hv]
                  · rw [Bool.not_eq_true] at hp
                    rw [hp] at hfind
                    simp only at hfind
                    exfalso
                    have hmem := List.mem_of_find?_eq_some hfind
                    have hple' := List.find?_some hfind
                    simp only [decide_eq_true_eq] at hple'
                    have hle := (List.pairwise_cons.mp hmono).1 p hmem
                    have : decide (hd.1 ≤ now - minutes) = true :=
                      decide_eq_true (le_trans hle hple')
                    rw [hp] at this
                    cases this
    rw [hov]
  · intro tr now ex sym fld minutes t1 t2 s1 s2 h h1 h2
    rw [HistoryTracker.get_delta, h]
    simp only
    rw [if_neg (by norm_num)]
    have hf1 : decide (t1 ≤ now - minutes) = false := by
      simp [not_le.mpr h1]
    have hf2 : decide (t2 ≤ now - minutes) = false := by
      simp [not_le.mpr h2]
    simp [List.find?_cons, hf1, hf2, List.getLast?]
  · intro tr now e1 e2 sym fld minutes h
    simp only [HistoryTracker.get_delta, h]

/-- Claim C6 witness: two points inside the lookback, delta computed via
the fallback and a case-normalized exchange name. -/
theorem C6_get_delta_witness :
    HistoryTracker.get_delta c6Tracker 30 "Bin" "S" MetricField.oi 60 = some 40 := by
  have hlook : c6Tracker.history.lookup (pyLower "Bin", "S")
      = some [((0 : ℚ), (⟨some 5, none, none⟩ : Snapshot ℚ)),
          (1, ⟨some 7, none, none⟩)] := rfl
  have h := C6_get_delta.2.2.2.1 c6Tracker 30 "Bin" "S" MetricField.oi 60
    0 1 ⟨some 5, none, none⟩ ⟨some 7, none, none⟩ hlook (by norm_num) (by norm_num)
  rw [h]
  have habs : |(5 : ℚ)| = 5 := abs_of_nonneg (by norm_num)
  simp only [Snapshot.get]
  norm_num [habs]

/-- Claim C7 (corrected).  Recording N gap values (3 <= N) for one key into
a fresh tracker and reading stability with a lookback covering all of them
returns the population standard deviation (the square root of the
population variance) of those N values -- amended from the claim: provided
N does not exceed the tracker's point capacity (360 in the engine), since
the ring buffer evicts the oldest points beyond that. -/
theorem C7_roundtrip (w : ℝ) (maxp : Nat) (gaps times : List ℝ) (now : ℝ) (s a b : String)
    (hlen : times.length = gaps.length) (h3 : 3 ≤ gaps.length) (hcap : gaps.length ≤ maxp)
    (hin : ∀ t ∈ times, now - w ≤ t) :
    (addAll ⟨w, maxp, []⟩ s a b (times.zip gaps)).get_stability Real.sqrt now s a b
      = Real.sqrt (popVar gaps) := by
  have hzlen : (times.zip gaps).length = gaps.length := by
    rw [List.length_zip, hlen, min_self]
  have hlook : (addAll ⟨w, maxp, []⟩ s a b (times.zip gaps)).history.lookup (gapKey s a b)
      = some (times.zip gaps) := by
    cases hz : times.zip gaps with
    | nil => rw [hz] at hzlen; simp at hzlen; omega
    | cons p l' =>
        have hmax1 : 1 ≤ maxp := by omega
        have h1 : ((⟨w, maxp, []⟩ : GapTracker ℝ).add p.1 s a b p.2).history.lookup
            (gapKey s a b) = some [p] := by
          rw [add_history_lookup]
          simp [dequePush, Nat.sub_eq_zero_of_le hmax1]
        have h2 := addAll_history_lookup s a b l' _ _ h1
        rw [hz] at hzlen
        have hfold : l'.foldl (fun acc q =>
            dequePush acc ((⟨w, maxp, []⟩ : GapTracker ℝ).add p.1 s a b p.2).max_points q) [p]
            = [p] ++ l' := by
          apply foldl_dequePush_append
          simp only [add_max_points]
          simp at hzlen ⊢
          omega
        have hstep : addAll (⟨w, maxp, []⟩ : GapTracker ℝ) s a b (p :: l')
            = addAll ((⟨w, maxp, []⟩ : GapTracker ℝ).add p.1 s a b p.2) s a b l' := rfl
        rw [hstep, h2, hfold]
        rfl
  have hw : (addAll ⟨w, maxp, []⟩ s a b (times.zip gaps)).window_minutes = w :=
    addAll_window s a b _ _
  rw [GapTracker.get_stability, hlook]
  simp only [hw]
  have hfilter : ((times.zip gaps).filter fun q => decide (now - w ≤ q.1)) = times.zip gaps := by
    apply List.filter_eq_self.mpr
    intro q hq
    rw [decide_eq_true_eq]
    exact hin q.1 (List.of_mem_zip hq).1
  rw [hfilter, List.map_snd_zip times gaps (le_of_eq hlen.symm)]
  rw [if_neg (by omega)]

/-- Claim C7 witness: four values 0, 0, 6, 6 recorded and read back; their
population standard deviation is 3. -/
theorem C7_roundtrip_witness :
    (addAll (⟨60, 360, []⟩ : GapTracker ℝ) "BTC/USDT" "x" "y"
        (([0, 0, 0, 0] : List ℝ).zip ([0, 0, 6, 6] : List ℝ))).get_stability
        Real.sqrt 0 "BTC/USDT" "x" "y" = Real.sqrt (popVar [0, 0, 6, 6]) ∧
    Real.sqrt (popVar ([0, 0, 6, 6] : List ℝ)) = 3 := by
  constructor
  · refine C7_roundtrip 60 360 [0, 0, 6, 6] [0, 0, 0, 0] 0 "BTC/USDT" "x" "y" rfl
      (by norm_num) (by norm_num) ?_
    intro t ht
    simp only [List.mem_cons, List.not_mem_nil, or_false] at ht
    rcases ht with rfl | rfl | rfl | rfl <;> norm_num
  · have h : popVar ([0, 0, 6, 6] : List ℝ) = 9 := by
      norm_num [popVar]
    rw [h, show (9:ℝ) = 3^2 by norm_num, Real.sqrt_sq (by norm_num : (0:ℝ) ≤ 3)]

set_option maxRecDepth 8000 in
/-- Claim C7 counterexample.  With N = 361 recordings (one more than the
360-point capacity) the first value 1000 is evicted: stability reads the
standard deviation 0 of the surviving 360 zeros, not the (non-zero)
standard deviation of all 361 recorded values. -/
theorem C7_counterexample :
    (addAll (⟨60, 360, []⟩ : GapTracker ℝ) "S" "x" "y"
        ((List.replicate 361 (0:ℝ)).zip ((1000:ℝ) :: List.replicate 360 0))).get_stability
        Real.sqrt 0 "S" "x" "y" = 0 ∧
    Real.sqrt (popVar ((1000:ℝ) :: List.replicate 360 0)) ≠ 0 := by
  constructor
  · have hz : (List.replicate 361 (0:ℝ)).zip ((1000:ℝ) :: List.replicate 360 0)
        = ((0:ℝ), (1000:ℝ)) :: List.replicate 360 ((0:ℝ), (0:ℝ)) := by
      rw [show (361 : Nat) = 360 + 1 by norm_num]
      rw [List.replicate_succ]
      simp [List.zip_cons_cons, zip_replicate_eq]
    have h1 : ((⟨60, 360, []⟩ : GapTracker ℝ).add 0 "S" "x" "y" 1000).history.lookup
        (gapKey "S" "x" "y") = some [((0:ℝ), (1000:ℝ))] := by
      rw [add_history_lookup]
      simp [dequePush]
    have h2 := addAll_history_lookup (α := ℝ) "S" "x" "y" (List.replicate 360 ((0:ℝ), (0:ℝ)))
      _ _ h1
    have hfold : (List.replicate 360 ((0:ℝ), (0:ℝ))).foldl (fun acc q =>
        dequePush acc ((⟨60, 360, []⟩ : GapTracker ℝ).add 0 "S" "x" "y" 1000).max_points q)
        [((0:ℝ), (1000:ℝ))] = List.replicate 360 ((0:ℝ), (0:ℝ)) := by
      rw [foldl_dequePush_takeLast _ _ _ (by simp [add_max_points])]
      simp only [add_max_points]
      rw [takeLast]
      simp
    have hlook : (addAll (⟨60, 360, []⟩ : GapTracker ℝ) "S" "x" "y"
        ((List.replicate 361 (0:ℝ)).zip ((1000:ℝ) :: List.replicate 360 0))).history.lookup
        (gapKey "S" "x" "y") = some (List.replicate 360 ((0:ℝ), (0:ℝ))) := by
      rw [hz]
      have hstep : addAll (⟨60, 360, []⟩ : GapTracker ℝ) "S" "x" "y"
          (((0:ℝ), (1000:ℝ)) :: List.replicate 360 ((0:ℝ), (0:ℝ)))
          = addAll ((⟨60, 360, []⟩ : GapTracker ℝ).add 0 "S" "x" "y" 1000) "S" "x" "y"
            (List.replicate 360 ((0:ℝ), (0:ℝ))) := rfl
      rw [hstep, h2, hfold]
    rw [GapTracker.get_stability, hlook]
    simp only [addAll_window]
    have hfilter : ((List.replicate 360 ((0:ℝ), (0:ℝ))).filter fun q =>
        decide ((0:ℝ) - (60:ℝ) ≤ q.1)) = List.replicate 360 ((0:ℝ), (0:ℝ)) :=
      filter_replicate_of_pos _ _ (by norm_num) 360
    rw [hfilter, List.map_replicate]
    rw [if_neg (by simp)]
    simp only [Prod.snd]
    rw [popVar_replicate_zero]
    exact Real.sqrt_zero
  · have hvar : 0 < popVar ((1000:ℝ) :: List.replicate 360 0) := by
      rw [popVar]
      simp only [List.length_cons, List.length_replicate, List.sum_cons, List.sum_replicate,
        List.map_cons, List.map_replicate, smul_zero, add_zero, nsmul_eq_mul]
      norm_num
    exact (Real.sqrt_pos.mpr hvar).ne'

/-- Claim C8 counterexample.  The ticker with funding 0.08 percent and OI
delta +15 receives the label "Long squeeze risk ↑", which is not the
claimed string "Long squeeze risk". -/
theorem C8_counterexample :
    determine_direction (defaultSqueezeConfig (α := ℚ)) (some (2/25)) (some 15)
      ≠ "Long squeeze risk" ∧
    determine_direction (defaultSqueezeConfig (α := ℚ)) (some (2/25)) (some 15)
      = "Long squeeze risk ↑" := by
  have habs : |(2 : ℚ)/25| = 2/25 := abs_of_nonneg (by positivity)
  have h : determine_direction (defaultSqueezeConfig (α := ℚ)) (some (2/25)) (some 15)
      = "Long squeeze risk ↑" := by
    norm_num [determine_direction, defaultSqueezeConfig, habs]
  refine ⟨by rw [h]; decide, h⟩

/-- Claim C8 (corrected).  The direction bias is "Neutral" unless the
funding magnitude strictly exceeds the extreme threshold AND the OI delta
is present and positive, in which case it is directional by the funding
sign; and funding 0.08 percent with OI delta +15 (whose normalized OI score
clamps to 100) is classified as a long-squeeze risk.  Amended from the
claim: the emitted labels carry a trailing arrow, "Long squeeze risk ↑"
and "Short squeeze risk ↑", not the bare strings the claim quotes. -/
theorem C8_direction (cfg : SqueezeConfig α) (funding oi_delta : Option α) :
    determine_direction cfg funding oi_delta
      = (match funding with
         | none => "Neutral"
         | some f =>
             if cfg.funding_extreme_threshold < |f| ∧ (∃ d, oi_delta = some d ∧ 0 < d) then
               (if 0 < f then "Long squeeze risk ↑" else "Short squeeze risk ↑")
             else "Neutral") ∧
    normalize_score (some (15 : α)) (defaultSqueezeConfig (α := α)).oi_shock_max = 100 ∧
    determine_direction (defaultSqueezeConfig (α := α)) (some (2/25)) (some 15)
      = "Long squeeze risk ↑" := by
  refine ⟨?_, ?_, ?_⟩
  · cases funding with
    | none => rfl
    | some f =>
        cases oi_delta with
        | none => simp [determine_direction]
        | some d =>
            by_cases h1 : cfg.funding_extreme_threshold < |f| <;>
              by_cases h2 : 0 < d <;>
              simp [determine_direction, h1, h2]
  · have habs : |(15 : α)| = 15 := abs_of_nonneg (by positivity)
    rw [normalize_score]
    norm_num [defaultSqueezeConfig, habs]
  · have habs : |(2 : α)/25| = 2/25 := abs_of_nonneg (by positivity)
    norm_num [determine_direction, defaultSqueezeConfig, habs]

/-- Claim C8 witness: a non-extreme input classified Neutral through the
theorem. -/
theorem C8_direction_witness :
    determine_direction (defaultSqueezeConfig (α := ℚ)) (some 1) none = "Neutral" := by
  rw [(C8_direction (defaultSqueezeConfig (α := ℚ)) (some 1) none).1]
  simp

/-- Claim C9 (confirmed).  analyze_all on a list containing a ticker whose
data_ok is false returns exactly the same signal list and the same final
history-tracker state as on the list with that ticker removed: no signal is
emitted for it, no history update happens for it, and the processing of all
other tickers is unaffected. -/
theorem C9_skip_unhealthy (cfg : SqueezeConfig α) (pyRound : Nat → α → α) (fmt : α → String)
    (now : α) (prev_fundings : List (String × α)) (pre post : List (TickerData α))
    (t : TickerData α) (ht : t.data_ok = false) (tr : HistoryTracker α) :
    analyze_all cfg pyRound fmt now (pre ++ t :: post) prev_fundings tr
      = analyze_all cfg pyRound fmt now (pre ++ post) prev_fundings tr := by
  rw [analyze_all, analyze_all]
  suffices h : analyzeFold cfg pyRound fmt now prev_fundings (pre ++ t :: post) tr
      = analyzeFold cfg pyRound fmt now prev_fundings (pre ++ post) tr by
    rw [h]
  induction pre generalizing tr with
  | nil =>
      simp only [List.nil_append, analyzeFold]
      rw [if_neg (by simp [ht])]
  | cons p pre ih =>
      simp only [List.cons_append, analyzeFold]
      by_cases hp : p.data_ok = true
      · rw [if_pos hp, if_pos hp]
        exact congrArg (fun x : List (SqueezeSignal α) × HistoryTracker α =>
          ((calculate_score cfg pyRound fmt tr now p
            (prev_fundings.lookup (p.exchange ++ ":" ++ p.symbol))).1 :: x.1, x.2))
          (ih ((calculate_score cfg pyRound fmt tr now p
            (prev_fundings.lookup (p.exchange ++ ":" ++ p.symbol))).2))
      · rw [if_neg hp, if_neg hp]
        exact ih tr

/-- Claim C9 witness: a single unhealthy ticker behaves as an empty input. -/
theorem C9_skip_unhealthy_witness :
    analyze_all (defaultSqueezeConfig (α := ℚ)) (fun _ x => x) (fun _ => "") 0 [c9Bad] []
        (freshHistoryTracker defaultSqueezeConfig)
      = analyze_all (defaultSqueezeConfig (α := ℚ)) (fun _ x => x) (fun _ => "") 0 [] []
        (freshHistoryTracker defaultSqueezeConfig) :=
  C9_skip_unhealthy (defaultSqueezeConfig (α := ℚ)) (fun _ x => x) (fun _ => "") 0 []
    [] [] c9Bad rfl (freshHistoryTracker defaultSqueezeConfig)

/-- Claim C10 (confirmed).  In every emitted signal, a successfully
computed OI delta, price delta, funding delta or spread stress whose value
is exactly 0 is published as None -- indistinguishable from "undefined" --
while every non-zero computed value is published rounded (deltas to 2
decimals, funding delta to 4, spread stress to 1; rounding modelled by the
abstract pyRound parameter). -/
theorem C10_zero_hidden (cfg : SqueezeConfig α) (pyRound : Nat → α → α) (fmt : α → String)
    (tr : HistoryTracker α) (now : α) (ticker : TickerData α) (prev : Option α) :
    ((HistoryTracker.add tr now ticker.exchange ticker.symbol
        (tickerSnapshot ticker)).get_delta now ticker.exchange ticker.symbol
        MetricField.oi 60 = some 0 →
      (calculate_score cfg pyRound fmt tr now ticker prev).1.oi_delta_pct = none) ∧
    (∀ v : α, (HistoryTracker.add tr now ticker.exchange ticker.symbol
        (tickerSnapshot ticker)).get_delta now ticker.exchange ticker.symbol
        MetricField.oi 60 = some v → v ≠ 0 →
      (calculate_score cfg pyRound fmt tr now ticker prev).1.oi_delta_pct
        = some (pyRound 2 v)) ∧
    ((HistoryTracker.add tr now ticker.exchange ticker.symbol
        (tickerSnapshot ticker)).get_delta now ticker.exchange ticker.symbol
        MetricField.price 60 = some 0 →
      (calculate_score cfg pyRound fmt tr now ticker prev).1.price_delta_pct = none) ∧
    (∀ v : α, (HistoryTracker.add tr now ticker.exchange ticker.symbol
        (tickerSnapshot ticker)).get_delta now ticker.exchange ticker.symbol
        MetricField.price 60 = some v → v ≠ 0 →
      (calculate_score cfg pyRound fmt tr now ticker prev).1.price_delta_pct
        = some (pyRound 2 v)) ∧
    (∀ f p : α, ticker.funding_rate = some f → prev = some p → f - p = 0 →
      (calculate_score cfg pyRound fmt tr now ticker prev).1.funding_delta = none) ∧
    (∀ f p : α, ticker.funding_rate = some f → prev = some p → f - p ≠ 0 →
      (calculate_score cfg pyRound fmt tr now ticker prev).1.funding_delta
        = some (pyRound 4 (f - p))) ∧
    (truthyOr ticker.spread_bps 0 = 0 →
      (calculate_score cfg pyRound fmt tr now ticker prev).1.spread_stress = none) ∧
    (truthyOr ticker.spread_bps 0 ≠ 0 →
      (calculate_score cfg pyRound fmt tr now ticker prev).1.spread_stress
        = some (pyRound 1 (truthyOr ticker.spread_bps 0))) := by
  refine ⟨?_, ?_, ?_, ?_, ?_, ?_, ?_, ?_⟩
  · intro h
    simp [calculate_score, h]
  · intro v h hv
    simp [calculate_score, h, hv]
  · intro h
    simp [calculate_score, h]
  · intro v h hv
    simp [calculate_score, h, hv]
  · intro f p hf hp h0
    simp [calculate_score, hf, hp, h0]
  · intro f p hf hp h0
    simp [calculate_score, hf, hp, h0]
  · intro h
    simp [calculate_score, h]
  · intro h
    simp [calculate_score, h]

/-- Claim C10 witness: an OI delta of exactly 0 and a spread stress of 0
published as None, and a funding delta of 2 published (rounded). -/
theorem C10_zero_hidden_witness :
    (calculate_score (defaultSqueezeConfig (α := ℚ)) (fun _ x => x) (fun _ => "")
      c10Tracker 0 c10Ticker (some 1)).1.oi_delta_pct = none ∧
    (calculate_score (defaultSqueezeConfig (α := ℚ)) (fun _ x => x) (fun _ => "")
      c10Tracker 0 c10Ticker (some 1)).1.funding_delta = some 2 ∧
    (calculate_score (defaultSqueezeConfig (α := ℚ)) (fun _ x => x) (fun _ => "")
      c10Tracker 0 c10Ticker (some 1)).1.spread_stress = none := by
  have habs : |(5 : ℚ)| = 5 := abs_of_nonneg (by norm_num)
  have hoi : (HistoryTracker.add c10Tracker 0 c10Ticker.exchange c10Ticker.symbol
      (tickerSnapshot c10Ticker)).get_delta 0 c10Ticker.exchange c10Ticker.symbol
      MetricField.oi 60 = some 0 := by
    norm_num [HistoryTracker.get_delta, HistoryTracker.add, c10Tracker, c10Ticker,
      tickerSnapshot, freshHistoryTracker, defaultSqueezeConfig, setAssoc, dequePush,
      List.lookup, Snapshot.get, List.find?, habs]
  have hsp : truthyOr c10Ticker.spread_bps 0 = (0 : ℚ) := by
    norm_num [truthyOr, TickerData.spread_bps, c10Ticker]
  refine ⟨(C10_zero_hidden (defaultSqueezeConfig (α := ℚ)) (fun _ x => x) (fun _ => "")
      c10Tracker 0 c10Ticker (some 1)).1 hoi, ?_, ?_⟩
  · have h := (C10_zero_hidden (defaultSqueezeConfig (α := ℚ)) (fun _ x => x) (fun _ => "")
      c10Tracker 0 c10Ticker (some 1)).2.2.2.2.2.1 3 1 rfl rfl (by norm_num)
    rw [h]
    norm_num
  · exact (C10_zero_hidden (defaultSqueezeConfig (α := ℚ)) (fun _ x => x) (fun _ => "")
      c10Tracker 0 c10Ticker (some 1)).2.2.2.2.2.2.1 hsp


end ClaimTheorems
